import Mathlib

/-!
Shallow embedding in Lean 4 of the two core pipelines of the
Announce-translate-bot repository:

  * the multi-language announcement fan-out
    (`src/cogs/announcements.py`, `Announcements.announce` and
    `Announcements.translate_text`), and
  * the auto-translate filter pipeline
    (`src/cogs/translation.py`, `Translation.on_message`).

Python strings are modelled as Lean `String`; the Python string
primitives used by the source (`str.lower`, `str.strip`, `str.replace`,
substring membership `in`, `str.startswith`, slicing `s[:n]`, and the
regex `re.findall(r'\b\w+\b', s)`) are given explicit executable
models over the underlying character lists.  External collaborators
(the discord transport, the GoogleTranslator provider, the language
detector) are injected as parameters: a provider/transport failure is
an `Option`/`Bool` value rather than a Python exception, and every
`try/except` of the source becomes an explicit branch on that value.
-/

namespace AnnounceBot

/-! ### Python string primitives -/

/-- Python `str.lower()` (the source only ever lowers ASCII letters;
emoji and punctuation are untouched by both sides). -/
def pyLower (s : String) : String := ⟨s.data.map Char.toLower⟩

/-- Python `str.strip()`: drop leading and trailing whitespace. -/
def pyStrip (s : String) : String :=
  ⟨((s.data.dropWhile Char.isWhitespace).reverse.dropWhile Char.isWhitespace).reverse⟩

/-- Python `str.startswith(pre)`. -/
def pyStartsWith (s pre : String) : Bool := pre.data.isPrefixOf s.data

/-- Decidable substring test on character lists (Python `sub in s`). -/
def containsSub (pat : List Char) : List Char → Bool
  | [] => pat.isPrefixOf ([] : List Char)
  | c :: cs => pat.isPrefixOf (c :: cs) || containsSub pat cs

/-- Python `sub in s` for strings. -/
def pyContains (s sub : String) : Bool := containsSub sub.data s.data

/-- One left-to-right pass replacing every non-overlapping occurrence of
`pat` (non-empty in all uses by the source) by `rep`: the semantics of
Python `str.replace(pat, rep)`.  Structural recursion on a fuel that
each step strictly consumes while consuming at least one character, so
with fuel `l.length` the fuel never runs out. -/
def replaceListAux (pat rep : List Char) : Nat → List Char → List Char
  | _, [] => []
  | 0, l => l
  | fuel + 1, c :: cs =>
    if pat.isPrefixOf (c :: cs) then
      rep ++ replaceListAux pat rep fuel (cs.drop (pat.length - 1))
    else
      c :: replaceListAux pat rep fuel cs

def replaceList (pat rep l : List Char) : List Char := replaceListAux pat rep l.length l

/-- Python `s.replace(pat, rep)` on strings. -/
def pyReplace (s pat rep : String) : String := ⟨replaceList pat.data rep.data s.data⟩

/-- Python `s[:n] + ("..." if len(s) > n else "")`, the truncation used
when composing embed fields. -/
def truncateWithEllipsis (n : Nat) (s : String) : String :=
  if s.data.length > n then ⟨s.data.take n⟩ ++ "..." else s

/-- A word character of the regex `\w` (alphanumeric or underscore;
the source only ever feeds it already-lowercased text). -/
def isWordChar (c : Char) : Bool := c.isAlphanum || c = '_'

/-- `re.findall(r'\b\w+\b', s)`: the maximal runs of word characters,
in order; punctuation and whitespace are boundaries, not tokens.
Fueled structural recursion as for `replaceListAux`. -/
def wordTokensAux : Nat → List Char → List (List Char)
  | _, [] => []
  | 0, _ => []
  | fuel + 1, c :: cs =>
    if isWordChar c then
      (c :: cs.takeWhile isWordChar) :: wordTokensAux fuel (cs.dropWhile isWordChar)
    else
      wordTokensAux fuel cs

def wordTokens (l : List Char) : List (List Char) := wordTokensAux l.length l

/-! ### Announcement fan-out (`src/cogs/announcements.py`)

`Announcements.announce` iterates the guild's
`language_channels : Dict[str, int]` (a Python dict, iterated in
insertion order), so a destination map is a `List (String × Nat)` of
`(lang_code, channel_id)` pairs in declaration order.  The transport
and the translation provider are the injected environment. -/

/-- The external collaborators seen by one `announce` call:
`resolve` models `bot.get_channel` (does the channel id resolve to a
live channel), `provider` models the raw
`GoogleTranslator(...).translate` call (`none` = the provider raised),
and `sendOk` models `target_channel.send` (`false` = the send raised). -/
structure AnnEnv where
  resolve : Nat → Bool
  provider : String → String → Option String
  sendOk : Nat → Bool

/-- `Announcements.translate_text`: wraps the provider in
`try/except`, returning the input text unchanged when the provider
fails (the leaf Translator fails closed). -/
def translate_text (provider : String → String → Option String)
    (text target_language : String) : String :=
  match provider text target_language with
  | some translated => translated
  | none => text

/-- The `--everyone` / `@everyone` scan of `announce` (lines 41-47):
detection is on `message.lower()`, but the two `str.replace` calls run
on the original-case `message` with lowercase patterns, followed by
`str.strip()`.  Returns `(mention_everyone, clean_message)`. -/
def stripEveryone (message : String) : Bool × String :=
  if pyContains (pyLower message) "--everyone" || pyContains (pyLower message) "@everyone" then
    (true, pyStrip (pyReplace (pyReplace message "--everyone" "") "@everyone" ""))
  else
    (false, message)

/-- The three per-destination terminal states of the fan-out loop:
a successful send (`sent_count += 1`), a failed channel lookup
(`failed_channels.append(... (channel not found))`), or a caught
exception in the loop body (`failed_channels.append(... (error))`). -/
inductive AnnStatus where
  | Sent
  | ChannelNotFound
  | SendFailed
deriving DecidableEq, Repr

/-- The record of one loop iteration for one `(lang_code, channel_id)`
destination. -/
structure AnnOutcome where
  lang : String
  channelId : Nat
  status : AnnStatus
deriving DecidableEq, Repr

/-- What one iteration of the fan-out loop does for one destination:
its terminal status, the Translator invocations it makes (as
`(text, target_language)` pairs), and the payloads it hands to the
transport (as `(channel_id, content)` pairs). -/
structure DestStep where
  outcome : AnnOutcome
  translateCalls : List (String × String)
  sends : List (Nat × String)
deriving DecidableEq, Repr

/-- The body of the `for lang_code, channel_id in language_channels.items()`
loop of `announce` (lines 54-84), for one destination:
  * `bot.get_channel` fails → record channel-not-found, `continue`
    (no Translator call, no send);
  * `lang_code == 'en'` → use `clean_message` verbatim (no Translator
    call);
  * otherwise → `translate_text(clean_message, lang_code)` (one
    Translator invocation, which never raises);
  * compose `full_message` with the announcement header, the
    original-English reference line for non-`'en'` destinations, and
    the `@everyone` prefix when requested;
  * `target_channel.send` — if the transport raises, the `except`
    branch records an error for this destination only. -/
def processDest (env : AnnEnv) (clean_message : String) (mention_everyone : Bool)
    (d : String × Nat) : DestStep :=
  let lang := d.1
  let cid := d.2
  if !env.resolve cid then
    ⟨⟨lang, cid, .ChannelNotFound⟩, [], []⟩
  else
    let calls := if lang = "en" then [] else [(clean_message, lang)]
    let translated_message :=
      if lang = "en" then clean_message
      else translate_text env.provider clean_message lang
    let full_message :=
      "**📢 Announcement**\n" ++ translated_message ++
        (if lang = "en" then "" else "\n\n*Original (English):* " ++ clean_message)
    let content :=
      if mention_everyone then "@everyone\n" ++ full_message else full_message
    if env.sendOk cid then
      ⟨⟨lang, cid, .Sent⟩, calls, [(cid, content)]⟩
    else
      ⟨⟨lang, cid, .SendFailed⟩, calls, []⟩

/-- The aggregate state of one fan-out run: `sent_count`, the ordered
per-destination outcomes, and the concatenated Translator-call and
transport-send traces. -/
structure FanoutRun where
  sentCount : Nat
  outcomes : List AnnOutcome
  translateCalls : List (String × String)
  sends : List (Nat × String)
deriving DecidableEq, Repr

/-- The fan-out loop over the destinations in declaration order; the
sequential loop of the source accumulates `sent_count` /
`failed_channels` left to right, which is exactly this recursion's
concatenation order. -/
def fanoutLoop (env : AnnEnv) (clean_message : String) (mention_everyone : Bool) :
    List (String × Nat) → FanoutRun
  | [] => ⟨0, [], [], []⟩
  | d :: rest =>
    let step := processDest env clean_message mention_everyone d
    let r := fanoutLoop env clean_message mention_everyone rest
    ⟨(if step.outcome.status = .Sent then 1 else 0) + r.sentCount,
      step.outcome :: r.outcomes,
      step.translateCalls ++ r.translateCalls,
      step.sends ++ r.sends⟩

/-- The observable result of one `announce` invocation:
`noDestinationsReported` is the early `ctx.send("❌ No announcement
language channels configured ...")` return (lines 36-39), taken before
any trigger-token scan, translation or dispatch. -/
structure AnnounceResult where
  noDestinationsReported : Bool
  mentionEveryone : Bool
  cleanMessage : String
  run : FanoutRun
deriving DecidableEq, Repr

/-- `Announcements.announce` (lines 32-92): fail fast on an empty
destination map, otherwise strip the broadcast-everyone trigger once
and run the fan-out loop over the configured destinations. -/
def announce (env : AnnEnv) (language_channels : List (String × Nat))
    (message : String) : AnnounceResult :=
  if language_channels.isEmpty then
    ⟨true, false, message, ⟨0, [], [], []⟩⟩
  else
    let me := stripEveryone message
    ⟨false, me.1, me.2, fanoutLoop env me.2 me.1 language_channels⟩

/-! ### Auto-translate filter pipeline (`src/cogs/translation.py`)

`Translation.on_message` gates the inbound message, detects its
language, translates it to English, and publishes the translation only
when it differs meaningfully from the original. -/

/-- The configuration and external collaborators seen by one
`on_message` invocation: the command prefix, the
`auto_translate_channels` watch list, the `single_detection` result
(`none` = the detector raised, which the inner `try/except` degrades
to `'auto'`), and the `GoogleTranslator(source='auto', target='en')`
result (`none` = the translator raised, caught by the outer
`try/except`). -/
structure MsgEnv where
  commandPrefix : String
  watched : List Nat
  detect : Option String
  translateToEn : Option String

/-- What one `on_message` invocation does: whether the detector and
the translator were invoked, the auto-translation embed published to
the channel (as `(language display, original field, translation
field)`), and whether the caught-exception diagnostic notice was sent
instead. -/
structure MsgResult where
  detectorCalled : Bool
  translatorCalled : Bool
  published : Option (String × String × String)
  errorNotice : Bool
deriving DecidableEq, Repr

/-- The no-side-effect result of a tripped gate. -/
def noAction : MsgResult := ⟨false, false, none, false⟩

/-- `Translation.on_message` (lines 291-388):
  * gate 1: bot author or command-prefixed content → return;
  * gate 2: empty/whitespace-only content → return;
  * gate 3: channel not in `auto_translate_channels` → return;
  * detect (failure degrades to `'auto'`); detected `'en'` → return
    with no translation;
  * translate to English (failure → the `except` branch sends the
    short diagnostic);
  * publish only if the lowercased, stripped texts differ, the
    stripped translation is non-empty, and the `\b\w+\b` token lists
    differ; the embed shows the detected language (`'Unknown'` when
    detection degraded to `'auto'`) and both texts truncated to 500
    characters. -/
def on_message (env : MsgEnv) (authorBot : Bool) (channelId : Nat)
    (content : String) : MsgResult :=
  if authorBot || pyStartsWith content env.commandPrefix then noAction
  else if pyStrip content = "" then noAction
  else if !(env.watched.contains channelId) then noAction
  else
    let detected_lang := env.detect.getD "auto"
    if detected_lang = "en" then ⟨true, false, none, false⟩
    else
      match env.translateToEn with
      | none => ⟨true, true, none, true⟩
      | some translated =>
        let original_clean := pyStrip (pyLower content)
        let translated_clean := pyStrip (pyLower translated)
        if translated_clean ≠ original_clean ∧ translated_clean.data.length > 0 then
          let original_words := wordTokens original_clean.data
          let translated_words := wordTokens translated_clean.data
          if original_words ≠ translated_words then
            let lang_display := if detected_lang ≠ "auto" then detected_lang else "Unknown"
            ⟨true, true,
              some (lang_display, truncateWithEllipsis 500 content,
                truncateWithEllipsis 500 translated), false⟩
          else ⟨true, true, none, false⟩
        else ⟨true, true, none, false⟩

/-! ### Helper lemmas about the fan-out loop -/

theorem processDest_outcome_key (env : AnnEnv) (c : String) (m : Bool) (d : String × Nat) :
    (processDest env c m d).outcome.lang = d.1 ∧
      (processDest env c m d).outcome.channelId = d.2 := by
  unfold processDest
  by_cases hr : env.resolve d.2
  · by_cases hs : env.sendOk d.2 <;> simp [hr, hs]
  · simp [hr]

theorem processDest_translateCalls_eq (env : AnnEnv) (c : String) (m : Bool)
    (d : String × Nat) :
    (processDest env c m d).translateCalls =
      if env.resolve d.2 && (d.1 != "en") then [(c, d.1)] else [] := by
  unfold processDest
  by_cases hr : env.resolve d.2
  · by_cases hl : d.1 = "en" <;> by_cases hs : env.sendOk d.2 <;> simp [hr, hl, hs]
  · simp [hr]

theorem processDest_sends_length_le (env : AnnEnv) (c : String) (m : Bool)
    (d : String × Nat) : (processDest env c m d).sends.length ≤ 1 := by
  unfold processDest
  by_cases hr : env.resolve d.2
  · by_cases hs : env.sendOk d.2 <;> simp [hr, hs]
  · simp [hr]

theorem processDest_translateCalls_length_le (env : AnnEnv) (c : String) (m : Bool)
    (d : String × Nat) : (processDest env c m d).translateCalls.length ≤ 1 := by
  rw [processDest_translateCalls_eq]
  split <;> simp

theorem fanoutLoop_outcomes_length (env : AnnEnv) (c : String) (m : Bool)
    (l : List (String × Nat)) : (fanoutLoop env c m l).outcomes.length = l.length := by
  induction l with
  | nil => rfl
  | cons d rest ih => simp [fanoutLoop, ih]

theorem fanoutLoop_outcomes_keys (env : AnnEnv) (c : String) (m : Bool)
    (l : List (String × Nat)) :
    (fanoutLoop env c m l).outcomes.map (fun o => (o.lang, o.channelId)) = l := by
  induction l with
  | nil => rfl
  | cons d rest ih =>
    have hk := processDest_outcome_key env c m d
    simp [fanoutLoop, ih, hk.1, hk.2]

theorem fanoutLoop_sentCount_eq (env : AnnEnv) (c : String) (m : Bool)
    (l : List (String × Nat)) :
    (fanoutLoop env c m l).sentCount =
      ((fanoutLoop env c m l).outcomes.filter
        (fun o => o.status == AnnStatus.Sent)).length := by
  induction l with
  | nil => rfl
  | cons d rest ih =>
    by_cases h : (processDest env c m d).outcome.status = AnnStatus.Sent
    · simp [fanoutLoop, List.filter_cons, h, ih]
      omega
    · simp [fanoutLoop, List.filter_cons, h, ih]

theorem fanoutLoop_append (env : AnnEnv) (c : String) (m : Bool)
    (l1 l2 : List (String × Nat)) :
    fanoutLoop env c m (l1 ++ l2) =
      ⟨(fanoutLoop env c m l1).sentCount + (fanoutLoop env c m l2).sentCount,
        (fanoutLoop env c m l1).outcomes ++ (fanoutLoop env c m l2).outcomes,
        (fanoutLoop env c m l1).translateCalls ++ (fanoutLoop env c m l2).translateCalls,
        (fanoutLoop env c m l1).sends ++ (fanoutLoop env c m l2).sends⟩ := by
  induction l1 with
  | nil => simp [fanoutLoop]
  | cons d rest ih => simp [fanoutLoop, ih]; omega

/-! ### Claim theorems for the announcement fan-out -/

/-- C1, as stated by the spec, is false on the code: with a Translator
provider that fails on every call, a resolved non-canonical (`fr`)
destination still receives the untranslated source text, its outcome
is `Sent` (not `SendFailed`), and it is counted in `sentCount`. -/
theorem C1_counterexample :
    AnnEnv.provider ⟨fun _ => true, fun _ _ => none, fun _ => true⟩ "Hello" "fr" = none ∧
    announce ⟨fun _ => true, fun _ _ => none, fun _ => true⟩ [("fr", 1)] "Hello" =
      ⟨false, false, "Hello",
        ⟨1, [⟨"fr", 1, .Sent⟩], [("Hello", "fr")],
          [(1, "**📢 Announcement**\nHello\n\n*Original (English):* Hello")]⟩⟩ :=
  ⟨rfl, rfl⟩

/-- C1 (amended): when the Translator provider fails for a resolved
destination whose language is not canonical, `translate_text` fails
closed and returns the source text, so the fan-out dispatches the
untranslated `clean_message` to that destination's channel and records
the destination as `Sent` (counted in `sentCount`); translation
failure is never recorded as `SendFailed`. -/
theorem C1_amended_provider_failure_sends_untranslated
    (env : AnnEnv) (clean : String) (m : Bool) (lang : String) (cid : Nat)
    (hlang : lang ≠ "en") (hres : env.resolve cid = true)
    (hprov : env.provider clean lang = none) (hsend : env.sendOk cid = true) :
    processDest env clean m (lang, cid) =
      ⟨⟨lang, cid, .Sent⟩, [(clean, lang)],
        [(cid, (if m then "@everyone\n" else "") ++
          ("**📢 Announcement**\n" ++ clean ++ ("\n\n*Original (English):* " ++ clean)))]⟩ := by
  cases m <;> simp [processDest, translate_text, hres, hprov, hlang, hsend]

/-- Witness for `C1_amended_provider_failure_sends_untranslated` at a
concrete failing provider. -/
theorem C1_amended_witness :
    processDest ⟨fun _ => true, fun _ _ => none, fun _ => true⟩ "Hola" false ("fr", 2) =
      ⟨⟨"fr", 2, .Sent⟩, [("Hola", "fr")],
        [(2, (if false then "@everyone\n" else "") ++
          ("**📢 Announcement**\n" ++ "Hola" ++ ("\n\n*Original (English):* " ++ "Hola")))]⟩ :=
  C1_amended_provider_failure_sends_untranslated
    ⟨fun _ => true, fun _ _ => none, fun _ => true⟩ "Hola" false "fr" 2
    (by decide) rfl rfl rfl

/-- C2: the code detects the broadcast-everyone trigger
case-insensitively but strips only exact-lowercase occurrences, so the
message `"Hello --EVERYONE"` sets `mention_everyone` yet keeps the
trigger token in `clean_message`, and the token reaches the dispatched
payload (beyond the separately prepended `@everyone\n` marker, whose
lowering does not contain `--everyone`). -/
theorem C2_code_bug_eval :
    stripEveryone "Hello --EVERYONE" = (true, "Hello --EVERYONE") ∧
    (announce ⟨fun _ => true, fun t _ => some t, fun _ => true⟩
        [("en", 1)] "Hello --EVERYONE").run.sends =
      [(1, "@everyone\n**📢 Announcement**\nHello --EVERYONE")] ∧
    pyContains (pyLower "@everyone\n**📢 Announcement**\nHello --EVERYONE") "--everyone" = true := by
  refine ⟨by decide, by decide, by decide⟩

/-- C4: in one fan-out run the Translator-call trace is exactly one
call `(clean_message, lang)` for each destination, in order, whose
channel resolves and whose language differs from the canonical `"en"`;
unresolved and canonical-language destinations contribute no call. -/
theorem C4_translator_iff_resolved_noncanonical
    (env : AnnEnv) (clean : String) (m : Bool) (dests : List (String × Nat)) :
    (fanoutLoop env clean m dests).translateCalls =
      (dests.filter (fun d => env.resolve d.2 && (d.1 != "en"))).map
        (fun d => (clean, d.1)) := by
  induction dests with
  | nil => rfl
  | cons d rest ih =>
    simp only [fanoutLoop, List.filter_cons]
    rw [processDest_translateCalls_eq]
    by_cases h : env.resolve d.2 && (d.1 != "en")
    · simp [h, ih]
    · simp [h, ih]

/-- C5: for a non-empty destination map with `k` entries, one
`announce` run yields exactly `k` outcomes, each carrying one of the
three statuses, `sentCount` equal to the number of `Sent` outcomes,
and the outcomes in the declaration order of the destinations. -/
theorem C5_summary_shape (env : AnnEnv) (dests : List (String × Nat)) (msg : String)
    (h : dests ≠ []) :
    (announce env dests msg).run.outcomes.length = dests.length ∧
    (announce env dests msg).run.sentCount =
      ((announce env dests msg).run.outcomes.filter
        (fun o => o.status == AnnStatus.Sent)).length ∧
    (announce env dests msg).run.outcomes.map (fun o => (o.lang, o.channelId)) = dests := by
  have hne : dests.isEmpty = false := by
    cases dests with
    | nil => exact absurd rfl h
    | cons a l => rfl
  simp only [announce, hne, Bool.false_eq_true, if_false]
  exact ⟨fanoutLoop_outcomes_length _ _ _ _, fanoutLoop_sentCount_eq _ _ _ _,
    fanoutLoop_outcomes_keys _ _ _ _⟩

/-- Witness for `C5_summary_shape` on a concrete two-destination map. -/
theorem C5_summary_shape_witness :
    (announce ⟨fun _ => true, fun t _ => some t, fun _ => true⟩
        [("en", 1), ("fr", 2)] "Hi").run.outcomes.length = 2 ∧
    (announce ⟨fun _ => true, fun t _ => some t, fun _ => true⟩
        [("en", 1), ("fr", 2)] "Hi").run.sentCount =
      ((announce ⟨fun _ => true, fun t _ => some t, fun _ => true⟩
        [("en", 1), ("fr", 2)] "Hi").run.outcomes.filter
          (fun o => o.status == AnnStatus.Sent)).length ∧
    (announce ⟨fun _ => true, fun t _ => some t, fun _ => true⟩
        [("en", 1), ("fr", 2)] "Hi").run.outcomes.map (fun o => (o.lang, o.channelId)) =
      [("en", 1), ("fr", 2)] :=
  C5_summary_shape ⟨fun _ => true, fun t _ => some t, fun _ => true⟩
    [("en", 1), ("fr", 2)] "Hi" (by decide)

/-- C6: an empty destination map makes `announce` fail fast with the
no-destinations report: no trigger-token scan, no translation call, no
dispatch, zero outcomes. -/
theorem C6_empty_destinations_fail_fast (env : AnnEnv) (msg : String) :
    announce env [] msg = ⟨true, false, msg, ⟨0, [], [], []⟩⟩ := rfl

/-- C7: in one fan-out run each destination's record is produced by
`processDest` on that destination alone — independent of every other
destination — all destinations after a failing one are still
processed, earlier sends remain an unmodified prefix of the final send
trace, and each destination makes at most one send and at most one
Translator call. -/
theorem C7_failure_isolation (env : AnnEnv) (clean : String) (m : Bool)
    (l1 l2 : List (String × Nat)) (d : String × Nat) :
    (fanoutLoop env clean m (l1 ++ d :: l2)).outcomes =
      (fanoutLoop env clean m l1).outcomes ++
        (processDest env clean m d).outcome :: (fanoutLoop env clean m l2).outcomes ∧
    (fanoutLoop env clean m (l1 ++ d :: l2)).sends =
      (fanoutLoop env clean m l1).sends ++
        ((processDest env clean m d).sends ++ (fanoutLoop env clean m l2).sends) ∧
    (processDest env clean m d).sends.length ≤ 1 ∧
    (processDest env clean m d).translateCalls.length ≤ 1 := by
  refine ⟨?_, ?_, processDest_sends_length_le env clean m d,
    processDest_translateCalls_length_le env clean m d⟩ <;>
    rw [fanoutLoop_append] <;> simp [fanoutLoop]

/-! ### Claim theorems for the auto-translate filter pipeline -/

/-- C3, as stated by the spec, is false on the code: for the gated-in
message `"Bonjour"` (detected `fr`) with translation `""`, the
case-folded trimmed strings differ and the tokenized word sequences
differ, so the claim requires a publish, yet the code's additional
`len(translated_clean) > 0` conjunct suppresses it. -/
theorem C3_counterexample :
    pyStrip (pyLower "") ≠ pyStrip (pyLower "Bonjour") ∧
    wordTokens (pyStrip (pyLower "Bonjour")).data ≠ wordTokens (pyStrip (pyLower "")).data ∧
    (on_message ⟨"!", [5], some "fr", some ""⟩ false 5 "Bonjour").published = none := by
  refine ⟨by decide, by decide, by decide⟩

/-- C3 (amended): once the gates are passed, the detected language is
not `"en"`, and the Translator returns a translation, the translation
is published if and only if the case-folded trimmed strings differ,
the case-folded trimmed translation is non-empty, and the tokenized
word sequences differ. -/
theorem C3_amended_equivalence_gate
    (env : MsgEnv) (cid : Nat) (content translated : String)
    (hpre : pyStartsWith content env.commandPrefix = false)
    (hne : pyStrip content ≠ "")
    (hw : env.watched.contains cid = true)
    (hdet : env.detect.getD "auto" ≠ "en")
    (htr : env.translateToEn = some translated) :
    (on_message env false cid content).published.isSome = true ↔
      (pyStrip (pyLower translated) ≠ pyStrip (pyLower content) ∧
        (pyStrip (pyLower translated)).data.length > 0 ∧
        wordTokens (pyStrip (pyLower content)).data ≠
          wordTokens (pyStrip (pyLower translated)).data) := by
  unfold on_message
  rw [htr]
  simp only [hpre, Bool.or_false, Bool.false_eq_true, if_false, if_neg hne, hw,
    Bool.not_true, if_neg hdet]
  by_cases h1 : pyStrip (pyLower translated) ≠ pyStrip (pyLower content) ∧
      (pyStrip (pyLower translated)).data.length > 0
  · by_cases h2 : wordTokens (pyStrip (pyLower content)).data ≠
        wordTokens (pyStrip (pyLower translated)).data
    · simp only [if_pos h1, if_pos h2, Option.isSome_some]
      exact ⟨fun _ => ⟨h1.1, h1.2, h2⟩, fun _ => trivial⟩
    · simp only [if_pos h1, if_neg h2, Option.isSome_none]
      exact ⟨fun h => absurd h (by simp), fun h => absurd h.2.2 h2⟩
  · simp only [if_neg h1]
    constructor
    · intro h
      exact absurd h (by simp)
    · intro h
      exact absurd ⟨h.1, h.2.1⟩ h1

/-- Witness for `C3_amended_equivalence_gate`: message `"Bonjour"`
detected as `fr` and translated to `"Hello"`. -/
theorem C3_amended_witness :
    (on_message ⟨"!", [5], some "fr", some "Hello"⟩ false 5 "Bonjour").published.isSome = true ↔
      (pyStrip (pyLower "Hello") ≠ pyStrip (pyLower "Bonjour") ∧
        (pyStrip (pyLower "Hello")).data.length > 0 ∧
        wordTokens (pyStrip (pyLower "Bonjour")).data ≠
          wordTokens (pyStrip (pyLower "Hello")).data) :=
  C3_amended_equivalence_gate ⟨"!", [5], some "fr", some "Hello"⟩ 5 "Bonjour" "Hello"
    (by decide) (by decide) (by decide) (by decide) rfl

/-- C8: a message authored by a bot, or empty/whitespace-only after
trimming, or on an unwatched channel, makes `on_message` perform no
detection, no translation and no dispatch at all. -/
theorem C8_gates_no_side_effect (env : MsgEnv) (bot : Bool) (cid : Nat) (content : String)
    (h : bot = true ∨ pyStrip content = "" ∨ env.watched.contains cid = false) :
    on_message env bot cid content = noAction := by
  unfold on_message
  rcases h with h | h | h
  · simp [h]
  · by_cases hb : (bot || pyStartsWith content env.commandPrefix) = true
    · simp [hb]
    · simp [hb, h]
  · by_cases hb : (bot || pyStartsWith content env.commandPrefix) = true
    · simp [hb]
    · have h' : cid ∉ env.watched := by simpa using h
      by_cases hs : pyStrip content = ""
      · simp [hb, hs]
      · simp [hb, hs, h']

/-- Witness for `C8_gates_no_side_effect`: a bot-authored message. -/
theorem C8_gates_witness :
    on_message ⟨"!", [5], some "fr", some "Hello"⟩ true 5 "Bonjour" = noAction :=
  C8_gates_no_side_effect ⟨"!", [5], some "fr", some "Hello"⟩ true 5 "Bonjour" (Or.inl rfl)

/-- C9: when the gates are passed and the Detector returns exactly the
canonical `"en"`, `on_message` stops after detection: the Translator
is not called and nothing is dispatched. -/
theorem C9_detected_canonical_stops (env : MsgEnv) (cid : Nat) (content : String)
    (hpre : pyStartsWith content env.commandPrefix = false)
    (hne : pyStrip content ≠ "")
    (hw : env.watched.contains cid = true)
    (hdet : env.detect = some "en") :
    on_message env false cid content = ⟨true, false, none, false⟩ := by
  have hw' : cid ∈ env.watched := by simpa using hw
  unfold on_message
  simp [hpre, if_neg hne, hw, hw', hdet]

/-- Witness for `C9_detected_canonical_stops`: the spec's scenario of
the message `"ok"` on a watched channel with the Detector returning
`en`. -/
theorem C9_detected_canonical_witness :
    on_message ⟨"!", [5], some "en", some "ok"⟩ false 5 "ok" = ⟨true, false, none, false⟩ :=
  C9_detected_canonical_stops ⟨"!", [5], some "en", some "ok"⟩ 5 "ok"
    (by decide) (by decide) (by decide) rfl

/-- C10: a message whose content starts with the configured command
prefix is ignored by `on_message` regardless of author, channel,
content, detectability or translatability — no detection, no
translation, no dispatch. -/
theorem C10_command_prefix_ignored (env : MsgEnv) (bot : Bool) (cid : Nat) (content : String)
    (h : pyStartsWith content env.commandPrefix = true) :
    on_message env bot cid content = noAction := by
  unfold on_message
  simp [h]

/-- Witness for `C10_command_prefix_ignored`: a non-empty,
human-authored, non-canonical-language message on a watched channel,
starting with the prefix `"!"`. -/
theorem C10_command_prefix_witness :
    on_message ⟨"!", [5], some "fr", some "hello"⟩ false 5 "!hola" = noAction :=
  C10_command_prefix_ignored ⟨"!", [5], some "fr", some "hello"⟩ false 5 "!hola" (by decide)

end AnnounceBot
